import Mathlib

/-!
Shallow embedding of the Express-Jobly core: the partial-update SQL fragment
builder (`helpers/sql.js`), the auth middleware chain (`middleware/auth.js`),
and the in-memory job filter (`models/job.js`), together with theorems
checking the natural-language specification against this embedding.

JavaScript conventions modelled explicitly:
* a possibly-absent value (`undefined`) is an `Option`;
* JS truthiness on strings (`if (s)`) is `s ≠ ""`, on numbers `n ≠ 0`,
  on booleans the boolean itself, on an `Option` slot `isSome`;
* a thrown error that is caught and forwarded to `next(err)` is a typed
  outcome; errors outside the app's taxonomy (e.g. a TypeError raised by
  reading a property of `undefined`) are a distinct `runtimeError` outcome.
-/

/-- The app's error taxonomy (`expressError.js`): BadRequest, NotFound,
Unauthorized (message-free in the middleware). -/
inductive JoblyError where
  | badRequest (msg : String)
  | notFound (msg : String)
  | unauthorized
deriving DecidableEq, Repr

/-- A JavaScript value as it appears in a partial-update data object:
string, number (integers suffice for this code base), boolean or null. -/
inductive Val where
  | str (s : String)
  | num (n : Int)
  | bool (b : Bool)
  | null
deriving DecidableEq, Repr

/-- The physical column name chosen by `helpers/sql.js` for a logical field:
the JS expression `jsToSql[colName] || colName`.  `jsToSql[colName]` is
`undefined` when the map has no entry (falsy), and the empty string is also
falsy, so both fall back to the logical name. -/
def physicalName (jsToSql : List (String × String)) (colName : String) : String :=
  match jsToSql.lookup colName with
  | some v => if v = "" then colName else v
  | none => colName

/-- `sqlForPartialUpdate` from `helpers/sql.js`.  The data object is a list of
key/value pairs in iteration order; the column map is a list of key/name
pairs.  Throws `BadRequestError("No data")` when the data object has no keys;
otherwise builds one `"col"=$i` fragment per key (index starting at 1),
joins them with `", "`, and returns the values in the same order. -/
def sqlForPartialUpdate (dataToUpdate : List (String × Val))
    (jsToSql : List (String × String)) : Except JoblyError (String × List Val) :=
  let keys := dataToUpdate.map Prod.fst
  if keys.length = 0 then .error (.badRequest "No data")
  else
    let cols := keys.enum.map
      (fun p => "\"" ++ physicalName jsToSql p.2 ++ "\"=$" ++ toString (p.1 + 1))
    .ok (String.intercalate ", " cols, dataToUpdate.map Prod.snd)

/-! ## Auth middleware (`middleware/auth.js`) -/

/-- The payload stored in `res.locals.user`: a JS object whose `username` and
`isAdmin` properties may each be absent (`undefined`). -/
structure User where
  username : Option String
  isAdmin : Option Bool
deriving DecidableEq, Repr

/-- What a gate middleware does with the request: call `next()` (pass), call
`next(err)` with an `UnauthorizedError` (unauthorized), or call `next(err)`
with an error outside the app's taxonomy — e.g. the TypeError raised by
reading a property of `undefined` — which the error handler maps to a
generic 500 (runtimeError). -/
inductive Outcome where
  | pass
  | unauthorized
  | runtimeError
deriving DecidableEq, Repr

/-- `ensureLoggedIn`: `if (!res.locals.user) throw new UnauthorizedError()`.
An absent slot is falsy; any object (even `{}`) is truthy. -/
def ensureLoggedIn (slot : Option User) : Outcome :=
  match slot with
  | none => .unauthorized
  | some _ => .pass

/-- `ensureAdmin`: `if (!res.locals.user.isAdmin) throw new UnauthorizedError`.
When the slot is empty, reading `.isAdmin` of `undefined` throws a TypeError,
which the surrounding `catch` forwards via `next(err)`; when the slot is
populated, `!isAdmin` is true exactly when `isAdmin` is not `true`. -/
def ensureAdmin (slot : Option User) : Outcome :=
  match slot with
  | none => .runtimeError
  | some u => if u.isAdmin = some true then .pass else .unauthorized

/-- `ensureAdminOrUser`: with `owner = req.params.username`, throws
Unauthorized when `!userObj.isAdmin && owner !== userObj.username`.  When the
slot is empty, reading `.isAdmin` of `undefined` throws a TypeError forwarded
by the `catch`.  A missing `username` property compares unequal to the
(string) path parameter. -/
def ensureAdminOrUser (owner : String) (slot : Option User) : Outcome :=
  match slot with
  | none => .runtimeError
  | some u =>
      if u.isAdmin ≠ some true ∧ u.username ≠ some owner then .unauthorized else .pass

/-- The token payload a verifier produces (`username` and `isAdmin` claims). -/
structure Claim where
  username : String
  isAdmin : Bool
deriving DecidableEq, Repr

/-- Verification failure of the external `jsonwebtoken` library (bad
signature, malformed token, expired — all thrown, all equivalent here). -/
inductive JwtError where
  | invalid
deriving DecidableEq, Repr

/-- JS whitespace test for `String.prototype.trim` (the characters relevant
to this code base). -/
def isJsWhitespace (c : Char) : Bool :=
  c = ' ' ∨ c = '\t' ∨ c = '\n' ∨ c = '\r'

/-- `String.prototype.trim`: drop whitespace from both ends. -/
def trimChars (cs : List Char) : List Char :=
  ((cs.dropWhile isJsWhitespace).reverse.dropWhile isJsWhitespace).reverse

/-- The regex replace `authHeader.replace(/^[Bb]earer /, "")`: the scheme
word is stripped only when the header starts with `"Bearer "` or
`"bearer "` — exactly the first letter is case-insensitive. -/
def stripScheme (cs : List Char) : List Char :=
  if "Bearer ".data.isPrefixOf cs then cs.drop 7
  else if "bearer ".data.isPrefixOf cs then cs.drop 7
  else cs

/-- `authHeader.replace(/^[Bb]earer /, "").trim()` as a string function. -/
def stripBearer (h : String) : String :=
  String.mk (trimChars (stripScheme h.data))

/-- `s.trim()` alone (used to state what the token of an unstripped header
is). -/
def strTrim (s : String) : String :=
  String.mk (trimChars s.data)

/-- `authenticateJWT` from `middleware/auth.js`.  `jwt.verify` is the
external library, passed in as a function returning the decoded payload or
throwing (`Except.error`).  The result is the final `res.locals.user` slot
together with the error passed to `next` (always `none`: the `catch` block
also calls `next()` with no argument). -/
def authenticateJWT (verify : String → String → Except JwtError Claim)
    (secretKey : String) (authHeader : Option String) :
    Option Claim × Option JwtError :=
  match authHeader with
  | none => (none, none)
  | some h =>
      if h = "" then (none, none)
      else
        match verify (stripBearer h) secretKey with
        | .ok claim => (some claim, none)
        | .error _ => (none, none)

/-- The gates that appear in route chains (`routes/jobs.js` uses
`ensureLoggedIn, ensureAdmin`; user routes use `ensureAdminOrUser`). -/
inductive Gate where
  | loggedIn
  | admin
  | adminOrUser
deriving DecidableEq, Repr

/-- Run one gate against the identity slot and the path username. -/
def runGate (g : Gate) (owner : String) (slot : Option User) : Outcome :=
  match g with
  | .loggedIn => ensureLoggedIn slot
  | .admin => ensureAdmin slot
  | .adminOrUser => ensureAdminOrUser owner slot

/-- Express's short-circuit sequencing of a gate chain: the first gate that
calls `next(err)` terminates evaluation with that error; otherwise control
reaches the handler (`pass`). -/
def runChain (gs : List Gate) (owner : String) (slot : Option User) : Outcome :=
  match gs with
  | [] => .pass
  | g :: rest =>
      match runGate g owner slot with
      | .pass => runChain rest owner slot
      | o => o

/-- A concrete verifier used to instantiate the verification hypotheses:
accepts exactly token "tk" under secret "sk". -/
def vOk : String → String → Except JwtError Claim :=
  fun t k => if t = "tk" ∧ k = "sk" then .ok ⟨"u", true⟩ else .error .invalid

/-- A concrete verifier under which token "tok123" verifies (any secret). -/
def vTok : String → String → Except JwtError Claim :=
  fun t _ => if t = "tok123" then .ok ⟨"admin", true⟩ else .error .invalid

/-! ## Job model (`models/job.js`) -/

/-- A row of the `jobs` table as materialized by `Job.findAll()`.  `salary`
is a non-negative integer (the schema's CHECK constraint; every fixture and
the filter's validated `minSalary` bound are likewise non-negative);
`equity` is the numeric value `Number(job.equity)` of the stored NUMERIC. -/
structure Job where
  id : Nat
  title : String
  salary : Nat
  equity : ℚ
  companyHandle : String
deriving DecidableEq, Repr

/-- The validated filter options object reaching `Job.filterJobs`: each of
the three recognized options may be absent.  `minSalary` has been validated
non-negative by the route's schema check. -/
structure FilterOptions where
  title : Option String
  minSalary : Option Nat
  hasEquity : Option Bool
deriving DecidableEq, Repr

/-- `pat.isPrefixOf`-based model of `String.prototype.includes` on char
lists: does `pat` occur contiguously in the haystack? -/
def listContains (pat : List Char) : List Char → Bool
  | [] => pat.isEmpty
  | c :: rest => pat.isPrefixOf (c :: rest) || listContains pat rest

/-- `job.title.toLowerCase().includes(title.toLowerCase())`: case-insensitive
substring containment (lower-casing modelled per character). -/
def strContainsCI (s pat : String) : Bool :=
  listContains (pat.data.map Char.toLower) (s.data.map Char.toLower)

/-- `Job.filterJobs` from `models/job.js`, applied to the already-materialized
collection (`Job.findAll()`'s rows).  Each stage is guarded by JS truthiness
of the corresponding option (`if (title)`, `if (minSalary)`,
`if (hasEquity)`), and an empty final result throws `NotFoundError`. -/
def filterJobs (data : List Job) (options : FilterOptions) : Except JoblyError (List Job) :=
  let filter1 :=
    match options.title with
    | some t => if t = "" then data else data.filter (fun j => strContainsCI j.title t)
    | none => data
  let filter2 :=
    match options.minSalary with
    | some m => if m = 0 then filter1 else filter1.filter (fun j => decide (m ≤ j.salary))
    | none => filter1
  let results :=
    match options.hasEquity with
    | some true => filter2.filter (fun j => decide ((0 : ℚ) < j.equity))
    | _ => filter2
  if results = [] then .error (.notFound "No jobs match the desired criteria")
  else .ok results

/-- Claim-side record predicate, written from the spec's words: the
conjunction of the three per-axis predicates, each trivially true when its
option is absent (substring match when `title` is supplied; `salary ≥ bound`
when `minSalary` is supplied; `equity > 0` when `hasEquity` is `true`; no
narrowing when `hasEquity` is `false` or absent). -/
def specMatches (o : FilterOptions) (j : Job) : Bool :=
  (match o.title with
   | some t => strContainsCI j.title t
   | none => true)
  && (match o.minSalary with
      | some m => decide (m ≤ j.salary)
      | none => true)
  && (match o.hasEquity with
      | some true => decide ((0 : ℚ) < j.equity)
      | _ => true)

/-- Concrete fixture jobs for witnesses. -/
def j1 : Job := ⟨1, "j1", 50000, 1, "c1"⟩

/-- Second fixture job (zero equity). -/
def j2 : Job := ⟨2, "j2", 100000, 0, "c2"⟩

/-! ## Theorems -/

/-- C1: amended.  An empty fields map fails with BadRequest("No data"); a
non-empty one yields the comma-joined fragments, one per field in order, the
i-th (0-based) binding the physical column name to placeholder `$(i+1)`,
with the values returned in parallel order — where the physical name falls
back to the logical name not only when the column map has no entry but also
when it maps the field to the empty string (the JS `||` fallback on a falsy
value).  The Aliya/age example evaluates as the claim states. -/
theorem sqlForPartialUpdate_spec (d : List (String × Val)) (m : List (String × String)) :
    (d = [] → sqlForPartialUpdate d m = .error (.badRequest "No data"))
    ∧ (d ≠ [] → ∃ cols : List String,
        sqlForPartialUpdate d m = .ok (String.intercalate ", " cols, d.map Prod.snd)
        ∧ cols.length = d.length
        ∧ ∀ i, i < d.length →
            cols.getD i "" =
              "\"" ++ physicalName m ((d.map Prod.fst).getD i "") ++ "\"=$" ++ toString (i + 1))
    ∧ sqlForPartialUpdate
        [("firstName", Val.str "Aliya"), ("age", Val.num 8)] [("firstName", "first_name")]
        = .ok ("\"first_name\"=$1, \"age\"=$2", [Val.str "Aliya", Val.num 8]) := by
  refine ⟨fun hd => by subst hd; rfl, fun hd => ?_, by rfl⟩
  have hlen : ¬ (d.map Prod.fst).length = 0 := by
    simpa [List.length_eq_zero] using hd
  refine ⟨(d.map Prod.fst).enum.map
      (fun p => "\"" ++ physicalName m p.2 ++ "\"=$" ++ toString (p.1 + 1)), ?_, ?_, ?_⟩
  · simp [sqlForPartialUpdate, hlen, hd]
  · simp
  · intro i hi
    rw [List.getD_eq_getElem?_getD, List.getD_eq_getElem?_getD, List.getElem?_map,
      List.getElem?_enum]
    cases hx : (d.map Prod.fst)[i]? with
    | none =>
        exfalso
        have := List.getElem?_eq_none_iff.mp hx
        simp at this
        omega
    | some v => simp

/-- C1 witness: the theorem applied at the empty map and at a concrete
one-field map. -/
theorem sqlForPartialUpdate_spec_witness :
    sqlForPartialUpdate ([] : List (String × Val)) [] = .error (.badRequest "No data")
    ∧ ∃ cols : List String,
        sqlForPartialUpdate [("age", Val.num 8)] [] =
          .ok (String.intercalate ", " cols, [Val.num 8]) :=
  ⟨(sqlForPartialUpdate_spec [] []).1 rfl,
   ((sqlForPartialUpdate_spec [("age", Val.num 8)] []).2.1 (by decide)).elim
     (fun cols h => ⟨cols, h.1⟩)⟩

/-- C1 counterexample: a column map that maps field "a" to the empty string.
The claim says the looked-up physical name (here `""`) is used whenever the
map has an entry, i.e. the fragment would be `""=$1`; the code's `||`
fallback instead emits `"a"=$1`. -/
theorem sqlForPartialUpdate_falsy_entry_counterexample :
    sqlForPartialUpdate [("a", Val.num 1)] [("a", "")] = .ok ("\"a\"=$1", [Val.num 1])
    ∧ ("\"a\"=$1" : String) ≠ "\"\"=$1" :=
  ⟨by rfl, by decide⟩

/-- C2: the set-clause string depends only on the key sequence and the column
map, never on the values: two data maps with identical key sequences yield
the identical clause, with all values travelling through the parallel value
list. -/
theorem setClause_value_independent (d₁ d₂ : List (String × Val)) (m : List (String × String))
    (hkeys : d₁.map Prod.fst = d₂.map Prod.fst) (hne : d₁ ≠ []) :
    ∃ s : String, sqlForPartialUpdate d₁ m = .ok (s, d₁.map Prod.snd)
      ∧ sqlForPartialUpdate d₂ m = .ok (s, d₂.map Prod.snd) := by
  have hlen1 : ¬ (d₁.map Prod.fst).length = 0 := by
    simpa [List.length_eq_zero] using hne
  have hlen2 : ¬ (d₂.map Prod.fst).length = 0 := by rw [← hkeys]; exact hlen1
  refine ⟨String.intercalate ", " ((d₁.map Prod.fst).enum.map
      (fun p => "\"" ++ physicalName m p.2 ++ "\"=$" ++ toString (p.1 + 1))), ?_, ?_⟩
  · simp [sqlForPartialUpdate, hlen1, hne]
  · simp [sqlForPartialUpdate, hlen2, hne, ← hkeys]

/-- C2 witness: same key, different values ("x" vs 0), same clause. -/
theorem setClause_value_independent_witness :
    ∃ s : String, sqlForPartialUpdate [("a", Val.str "x")] [] = .ok (s, [Val.str "x"])
      ∧ sqlForPartialUpdate [("a", Val.num 0)] [] = .ok (s, [Val.num 0]) :=
  setClause_value_independent [("a", Val.str "x")] [("a", Val.num 0)] [] rfl (by decide)

/-! ### Gate theorems (C3, C4) -/

/-- C3: amended.  `ensureAdmin` passes iff the identity slot is populated
with `isAdmin === true`, and fails with Unauthorized whenever the slot is
populated but `isAdmin` is falsy or absent; however, when the slot is empty
the middleware fails by forwarding the TypeError raised by reading
`.isAdmin` of `undefined` — a runtime error, not a typed Unauthorized. -/
theorem ensureAdmin_spec (slot : Option User) :
    (ensureAdmin slot = .pass ↔ ∃ u, slot = some u ∧ u.isAdmin = some true)
    ∧ (∀ u, slot = some u → u.isAdmin ≠ some true → ensureAdmin slot = .unauthorized)
    ∧ (slot = none → ensureAdmin slot = .runtimeError) := by
  refine ⟨?_, ?_, ?_⟩
  · cases slot with
    | none => simp [ensureAdmin]
    | some u => by_cases h : u.isAdmin = some true <;> simp [ensureAdmin, h]
  · rintro u rfl h
    simp [ensureAdmin, h]
  · rintro rfl
    rfl

/-- C3 witness: a populated slot with `isAdmin: false` is rejected with
Unauthorized. -/
theorem ensureAdmin_spec_witness :
    ensureAdmin (some ⟨some "test", some false⟩) = .unauthorized :=
  (ensureAdmin_spec (some ⟨some "test", some false⟩)).2.1
    ⟨some "test", some false⟩ rfl (by decide)

/-- C3 counterexample: with the identity slot empty, `ensureAdmin` forwards
the TypeError from reading `.isAdmin` of `undefined` — a runtime error, not
the typed Unauthorized the claim requires. -/
theorem ensureAdmin_empty_slot_counterexample :
    ensureAdmin none = Outcome.runtimeError
    ∧ Outcome.runtimeError ≠ Outcome.unauthorized :=
  ⟨rfl, by decide⟩

/-- C4: amended.  `ensureAdminOrUser` passes iff the identity slot is
populated and (`isAdmin === true` or the username matches the path
username); a populated identity failing both (including one with no
`username` field) is rejected with Unauthorized; but an absent identity
makes the middleware forward the TypeError raised by reading `.isAdmin` of
`undefined` — a runtime error, not a typed Unauthorized. -/
theorem ensureAdminOrUser_spec (owner : String) (slot : Option User) :
    (ensureAdminOrUser owner slot = .pass ↔
      ∃ u, slot = some u ∧ (u.isAdmin = some true ∨ u.username = some owner))
    ∧ (∀ u, slot = some u → u.isAdmin ≠ some true → u.username ≠ some owner →
        ensureAdminOrUser owner slot = .unauthorized)
    ∧ (slot = none → ensureAdminOrUser owner slot = .runtimeError) := by
  refine ⟨?_, ?_, ?_⟩
  · cases slot with
    | none => simp [ensureAdminOrUser]
    | some u =>
        by_cases h1 : u.isAdmin = some true
        · simp [ensureAdminOrUser, h1]
        · by_cases h2 : u.username = some owner <;> simp [ensureAdminOrUser, h1, h2]
  · rintro u rfl h1 h2
    simp [ensureAdminOrUser, h1, h2]
  · rintro rfl
    rfl

/-- C4 witness: a populated non-admin identity with a mismatching username
is rejected with Unauthorized. -/
theorem ensureAdminOrUser_spec_witness :
    ensureAdminOrUser "u1" (some ⟨some "u2", some false⟩) = .unauthorized :=
  (ensureAdminOrUser_spec "u1" (some ⟨some "u2", some false⟩)).2.1
    ⟨some "u2", some false⟩ rfl (by decide) (by decide)

/-- C4 counterexample: with the identity slot empty, `ensureAdminOrUser`
forwards the TypeError from reading `.isAdmin` of `undefined` — a runtime
error, not the typed Unauthorized the claim requires. -/
theorem ensureAdminOrUser_empty_slot_counterexample :
    ensureAdminOrUser "u1" none = Outcome.runtimeError
    ∧ Outcome.runtimeError ≠ Outcome.unauthorized :=
  ⟨rfl, by decide⟩

/-! ### Credential verifier theorems (C5, C9) -/

/-- C5: `authenticateJWT` never fails the request: the error passed to
`next` is always `none`; with no Authorization header the slot stays empty;
a token that the verifier accepts populates the slot with exactly the
decoded claim; any verification failure leaves the slot empty, exactly as
if no credential had been presented. -/
theorem authenticateJWT_never_fails
    (verify : String → String → Except JwtError Claim) (key : String)
    (header : Option String) :
    ((authenticateJWT verify key header).2 = none)
    ∧ (header = none → (authenticateJWT verify key header).1 = none)
    ∧ (∀ h c, header = some h → h ≠ "" → verify (stripBearer h) key = .ok c →
        (authenticateJWT verify key header).1 = some c)
    ∧ (∀ h e, header = some h → verify (stripBearer h) key = .error e →
        (authenticateJWT verify key header).1 = none) := by
  refine ⟨?_, ?_, ?_, ?_⟩
  · cases header with
    | none => rfl
    | some h =>
        by_cases hh : h = ""
        · simp [authenticateJWT, hh]
        · simp only [authenticateJWT, if_neg hh]
          cases hv : verify (stripBearer h) key <;> simp [hv]
  · rintro rfl
    rfl
  · rintro h c rfl hne hv
    simp [authenticateJWT, hne, hv]
  · rintro h e rfl hv
    by_cases hh : h = ""
    · simp [authenticateJWT, hh]
    · simp [authenticateJWT, hh, hv]

/-- C5 witness: under the concrete verifier `vOk`, a good token populates
the slot, a bad one leaves it empty, and `next` never receives an error. -/
theorem authenticateJWT_never_fails_witness :
    (authenticateJWT vOk "sk" (some "Bearer tk")).2 = none
    ∧ (authenticateJWT vOk "sk" (some "Bearer tk")).1 = some ⟨"u", true⟩
    ∧ (authenticateJWT vOk "sk" (some "Bearer bad")).1 = none :=
  ⟨(authenticateJWT_never_fails vOk "sk" (some "Bearer tk")).1,
   (authenticateJWT_never_fails vOk "sk" (some "Bearer tk")).2.2.1
     "Bearer tk" ⟨"u", true⟩ rfl (by decide) (by rfl),
   (authenticateJWT_never_fails vOk "sk" (some "Bearer bad")).2.2.2
     "Bearer bad" .invalid rfl (by rfl)⟩

theorem isPrefixOf_cons_ne (a b : Char) (as bs : List Char) (h : (a == b) = false) :
    (a :: as).isPrefixOf (b :: bs) = false := by
  simp [List.isPrefixOf, h]

theorem stripScheme_cap (l : List Char) : stripScheme ("Bearer ".data ++ l) = l := by
  have hpre : ("Bearer ".data).isPrefixOf ("Bearer ".data ++ l) = true := by
    rw [List.isPrefixOf_iff_prefix]
    exact List.prefix_append _ _
  unfold stripScheme
  rw [if_pos hpre]
  have hlit : ("Bearer ".data : List Char)
      = 'B' :: 'e' :: 'a' :: 'r' :: 'e' :: 'r' :: ' ' :: [] := rfl
  rw [hlit, List.cons_append, List.cons_append, List.cons_append, List.cons_append,
    List.cons_append, List.cons_append, List.cons_append, List.nil_append]
  rfl

theorem stripScheme_low (l : List Char) : stripScheme ("bearer ".data ++ l) = l := by
  have hno : ("Bearer ".data).isPrefixOf ("bearer ".data ++ l) = false := by
    show ("Bearer ".data).isPrefixOf ('b' :: ("earer ".data ++ l)) = false
    exact isPrefixOf_cons_ne 'B' 'b' _ _ rfl
  have hpre : ("bearer ".data).isPrefixOf ("bearer ".data ++ l) = true := by
    rw [List.isPrefixOf_iff_prefix]
    exact List.prefix_append _ _
  unfold stripScheme
  rw [if_neg (by simp [hno]), if_pos hpre]
  have hlit : ("bearer ".data : List Char)
      = 'b' :: 'e' :: 'a' :: 'r' :: 'e' :: 'r' :: ' ' :: [] := rfl
  rw [hlit, List.cons_append, List.cons_append, List.cons_append, List.cons_append,
    List.cons_append, List.cons_append, List.cons_append, List.nil_append]
  rfl

theorem stripScheme_upper (l : List Char) :
    stripScheme ("BEARER ".data ++ l) = "BEARER ".data ++ l := by
  have h1 : ("Bearer ".data).isPrefixOf ("BEARER ".data ++ l) = false := by
    show ("Bearer ".data).isPrefixOf ('B' :: ("EARER ".data ++ l)) = false
    show (('B' == 'B') && ("earer ".data).isPrefixOf ("EARER ".data ++ l)) = false
    rw [show (("earer ".data).isPrefixOf ("EARER ".data ++ l)) = false from
      isPrefixOf_cons_ne 'e' 'E' _ _ rfl]
    rfl
  have h2 : ("bearer ".data).isPrefixOf ("BEARER ".data ++ l) = false := by
    show ("bearer ".data).isPrefixOf ('B' :: ("EARER ".data ++ l)) = false
    exact isPrefixOf_cons_ne 'b' 'B' _ _ rfl
  unfold stripScheme
  rw [if_neg (by simp [h1]), if_neg (by simp [h2])]

theorem stripBearer_cap (tok : String) : stripBearer ("Bearer " ++ tok) = strTrim tok := by
  unfold stripBearer strTrim
  rw [String.data_append, stripScheme_cap]

theorem stripBearer_low (tok : String) : stripBearer ("bearer " ++ tok) = strTrim tok := by
  unfold stripBearer strTrim
  rw [String.data_append, stripScheme_low]

theorem stripBearer_upper (tok : String) :
    stripBearer ("BEARER " ++ tok) = strTrim ("BEARER " ++ tok) := by
  unfold stripBearer strTrim
  rw [String.data_append, stripScheme_upper, ← String.data_append]

theorem append_ne_empty (a b : String) (ha : a ≠ "") : a ++ b ≠ "" := by
  intro h
  apply ha
  have hdata := congrArg String.data h
  rw [String.data_append] at hdata
  have h2 := List.append_eq_nil.mp hdata
  apply String.ext
  rw [h2.1]

/-- C9: amended.  The scheme word is stripped only in its `Bearer` and
`bearer` spellings (the regex `/^[Bb]earer /` makes exactly the first letter
case-insensitive): under those two spellings a verifying token populates
the slot with the decoded claim, but under `BEARER` the scheme is left
attached to the token, verification fails, and the slot stays empty. -/
theorem bearer_scheme_first_letter_case
    (verify : String → String → Except JwtError Claim) (key tok : String)
    (c : Claim) (e : JwtError)
    (hok : verify (strTrim tok) key = .ok c)
    (hbad : verify (strTrim ("BEARER " ++ tok)) key = .error e) :
    (authenticateJWT verify key (some ("Bearer " ++ tok))).1 = some c
    ∧ (authenticateJWT verify key (some ("bearer " ++ tok))).1 = some c
    ∧ (authenticateJWT verify key (some ("BEARER " ++ tok))).1 = none := by
  refine ⟨?_, ?_, ?_⟩
  · simp only [authenticateJWT, if_neg (append_ne_empty "Bearer " tok (by decide)),
      stripBearer_cap, hok]
  · simp only [authenticateJWT, if_neg (append_ne_empty "bearer " tok (by decide)),
      stripBearer_low, hok]
  · simp only [authenticateJWT, if_neg (append_ne_empty "BEARER " tok (by decide)),
      stripBearer_upper, hbad]

/-- C9 witness: the amended theorem at the concrete verifier `vTok` and
token "tok123". -/
theorem bearer_scheme_first_letter_case_witness :
    (authenticateJWT vTok "k" (some ("Bearer " ++ "tok123"))).1 = some ⟨"admin", true⟩
    ∧ (authenticateJWT vTok "k" (some ("bearer " ++ "tok123"))).1 = some ⟨"admin", true⟩
    ∧ (authenticateJWT vTok "k" (some ("BEARER " ++ "tok123"))).1 = none :=
  bearer_scheme_first_letter_case vTok "k" "tok123" ⟨"admin", true⟩ .invalid
    (by rfl) (by rfl)

/-- C9 counterexample: under the verifier `vTok` the token "tok123"
verifies, and the headers "Bearer tok123" and "bearer tok123" both populate
the identity slot with the decoded claim — but "BEARER tok123" leaves the
slot empty, refuting "regardless of the capitalization of the scheme
word". -/
theorem bearer_scheme_counterexample :
    (authenticateJWT vTok "k" (some "Bearer tok123")).1 = some ⟨"admin", true⟩
    ∧ (authenticateJWT vTok "k" (some "bearer tok123")).1 = some ⟨"admin", true⟩
    ∧ (authenticateJWT vTok "k" (some "BEARER tok123")).1 = none :=
  ⟨rfl, rfl, rfl⟩

/-! ### Gate chain theorems (C8) -/

theorem runGate_populated (g : Gate) (owner : String) (u : User) :
    runGate g owner (some u) = .pass ∨ runGate g owner (some u) = .unauthorized := by
  cases g with
  | loggedIn => exact Or.inl rfl
  | admin =>
      by_cases h : u.isAdmin = some true
      · exact Or.inl (by simp [runGate, ensureAdmin, h])
      · exact Or.inr (by simp [runGate, ensureAdmin, h])
  | adminOrUser =>
      by_cases h : u.isAdmin ≠ some true ∧ u.username ≠ some owner
      · exact Or.inr (by simp [runGate, ensureAdminOrUser, h])
      · exact Or.inl (by simp [runGate, ensureAdminOrUser, h])

theorem runChain_populated (gs : List Gate) (owner : String) (u : User) :
    runChain gs owner (some u) =
      if gs.all (fun g => decide (runGate g owner (some u) = .pass)) then .pass
      else .unauthorized := by
  induction gs with
  | nil => rfl
  | cons g rest ih =>
      rcases runGate_populated g owner u with h | h <;>
        simp [runChain, h, ih]

/-- C8: amended.  For a populated identity slot, evaluating a gate chain in
any order of its gates yields the same outcome (each gate is then a pure
pass/Unauthorized predicate, so the chain passes iff all gates pass).  The
claim's universal form over every slot state fails: with an empty slot,
`ensureAdmin` before `ensureLoggedIn` produces a runtime TypeError where the
opposite order produces Unauthorized. -/
theorem runChain_perm_invariant (gs₁ gs₂ : List Gate) (hperm : gs₁.Perm gs₂)
    (owner : String) (u : User) :
    runChain gs₁ owner (some u) = runChain gs₂ owner (some u) := by
  rw [runChain_populated, runChain_populated]
  have hall : gs₁.all (fun g => decide (runGate g owner (some u) = .pass))
      = gs₂.all (fun g => decide (runGate g owner (some u) = .pass)) := by
    rw [Bool.eq_iff_iff, List.all_eq_true, List.all_eq_true]
    exact ⟨fun H x hx => H x (hperm.mem_iff.mpr hx),
           fun H x hx => H x (hperm.mem_iff.mp hx)⟩
  rw [hall]

/-- C8 witness: the two orders of the jobs routes' chain agree on a
populated admin identity. -/
theorem runChain_perm_invariant_witness :
    runChain [Gate.loggedIn, Gate.admin] "u1" (some ⟨some "u1", some true⟩)
      = runChain [Gate.admin, Gate.loggedIn] "u1" (some ⟨some "u1", some true⟩) :=
  runChain_perm_invariant [Gate.loggedIn, Gate.admin] [Gate.admin, Gate.loggedIn]
    (List.Perm.swap Gate.admin Gate.loggedIn []) "u1" ⟨some "u1", some true⟩

/-- C8 counterexample: with an empty identity slot, running
`ensureLoggedIn` before `ensureAdmin` fails with Unauthorized, while the
reversed order fails with the forwarded TypeError — the outcome's failure
kind depends on gate order. -/
theorem gate_order_counterexample :
    runChain [Gate.loggedIn, Gate.admin] "u1" none = Outcome.unauthorized
    ∧ runChain [Gate.admin, Gate.loggedIn] "u1" none = Outcome.runtimeError
    ∧ Outcome.unauthorized ≠ Outcome.runtimeError :=
  ⟨rfl, rfl, by decide⟩

/-! ### Filter evaluator theorems (C6, C7, C10) -/

theorem listContains_nil_pat (hay : List Char) : listContains [] hay = true := by
  cases hay <;> rfl

theorem strContainsCI_empty_pat (s : String) : strContainsCI s "" = true := by
  unfold strContainsCI
  rw [show (("" : String).data.map Char.toLower) = ([] : List Char) from rfl]
  exact listContains_nil_pat _

theorem filter_trues (l : List Job) (p : Job → Bool) (hp : ∀ j, p j = true) :
    l.filter p = l := by
  induction l with
  | nil => rfl
  | cons a as ih => simp [List.filter, hp, ih]

theorem filter_three (data : List Job) (q1 q2 q3 : Job → Bool) :
    ((data.filter q1).filter q2).filter q3
      = data.filter (fun j => (q1 j && q2 j) && q3 j) := by
  rw [List.filter_filter, List.filter_filter]
  apply List.filter_congr
  intro j _
  cases h1 : q1 j <;> cases h2 : q2 j <;> cases h3 : q3 j <;> rfl

theorem filterJobs_eq_specFilter (data : List Job) (o : FilterOptions) :
    filterJobs data o =
      if data.filter (specMatches o) = [] then
        .error (.notFound "No jobs match the desired criteria")
      else .ok (data.filter (specMatches o)) := by
  rcases o with ⟨t, m, e⟩
  have h1 : (match t with
      | some t' => if t' = "" then data else data.filter (fun j => strContainsCI j.title t')
      | none => data)
      = data.filter (fun j => (match t with
          | some t' => strContainsCI j.title t'
          | none => true)) := by
    cases t with
    | none => exact (filter_trues data _ (fun j => rfl)).symm
    | some t' =>
        by_cases ht : t' = ""
        · subst ht
          show (if ("" : String) = "" then data else _)
            = data.filter (fun j => strContainsCI j.title "")
          rw [if_pos rfl]
          exact (filter_trues data _ (fun j => strContainsCI_empty_pat j.title)).symm
        · show (if t' = "" then data else data.filter (fun j => strContainsCI j.title t'))
            = data.filter (fun j => strContainsCI j.title t')
          rw [if_neg ht]
  have h2 : ∀ l : List Job, (match m with
      | some m' => if m' = 0 then l else l.filter (fun j => decide (m' ≤ j.salary))
      | none => l)
      = l.filter (fun j => (match m with
          | some m' => decide (m' ≤ j.salary)
          | none => true)) := by
    intro l
    cases m with
    | none => exact (filter_trues l _ (fun j => rfl)).symm
    | some m' =>
        by_cases hm : m' = 0
        · subst hm
          show (if (0 : Nat) = 0 then l else _)
            = l.filter (fun j => decide ((0 : Nat) ≤ j.salary))
          rw [if_pos rfl]
          exact (filter_trues l _ (fun j => by simp)).symm
        · show (if m' = 0 then l else l.filter (fun j => decide (m' ≤ j.salary)))
            = l.filter (fun j => decide (m' ≤ j.salary))
          rw [if_neg hm]
  have h3 : ∀ l : List Job, (match e with
      | some true => l.filter (fun j => decide ((0 : ℚ) < j.equity))
      | _ => l)
      = l.filter (fun j => (match e with
          | some true => decide ((0 : ℚ) < j.equity)
          | _ => true)) := by
    intro l
    cases e with
    | none => exact (filter_trues l _ (fun j => rfl)).symm
    | some b =>
        cases b with
        | false => exact (filter_trues l _ (fun j => rfl)).symm
        | true => rfl
  have hspec : specMatches ⟨t, m, e⟩
      = fun j => ((match t with
          | some t' => strContainsCI j.title t'
          | none => true)
        && (match m with
          | some m' => decide (m' ≤ j.salary)
          | none => true))
        && (match e with
          | some true => decide ((0 : ℚ) < j.equity)
          | _ => true) := rfl
  simp only [filterJobs]
  rw [h1, h2, h3, filter_three, hspec]

/-- C6: on success, `filterJobs` returns exactly the records of the input
collection, in their original order, satisfying the conjunction of the
supplied predicates (case-insensitive title containment, salary lower bound,
strictly positive equity when `hasEquity` is true, no narrowing per absent
option or a false `hasEquity`). -/
theorem filterJobs_conjunction (data : List Job) (o : FilterOptions) (l : List Job)
    (h : filterJobs data o = .ok l) : l = data.filter (specMatches o) := by
  rw [filterJobs_eq_specFilter] at h
  by_cases hempty : data.filter (specMatches o) = []
  · rw [if_pos hempty] at h
    cases h
  · rw [if_neg hempty] at h
    injection h with h'
    exact h'.symm

/-- C6 witness: with `hasEquity: true`, the fixture collection narrows to
its positive-equity record, matching the conjunction filter. -/
theorem filterJobs_conjunction_witness :
    [j1] = [j1, j2].filter (specMatches ⟨none, none, some true⟩) :=
  filterJobs_conjunction [j1, j2] ⟨none, none, some true⟩ [j1] (by rfl)

/-- C7: `filterJobs` fails — necessarily with NotFound — exactly when no
record survives all supplied predicates, and any successful result is a
non-empty list. -/
theorem filterJobs_notFound_iff_empty (data : List Job) (o : FilterOptions) :
    (filterJobs data o = .error (.notFound "No jobs match the desired criteria")
      ↔ data.filter (specMatches o) = [])
    ∧ (∀ l, filterJobs data o = .ok l → l ≠ []) := by
  rw [filterJobs_eq_specFilter]
  constructor
  · constructor
    · intro h
      by_contra hne
      rw [if_neg hne] at h
      cases h
    · intro h
      rw [if_pos h]
  · intro l h hl
    by_cases hempty : data.filter (specMatches o) = []
    · rw [if_pos hempty] at h
      cases h
    · rw [if_neg hempty] at h
      injection h with h'
      exact hempty (h'.trans hl)

/-- C7 witness: the theorem applied to a one-record collection and a title
that matches nothing, yielding a NotFound failure. -/
theorem filterJobs_notFound_iff_empty_witness :
    filterJobs [j1] ⟨some "zzz", none, none⟩
      = .error (.notFound "No jobs match the desired criteria") :=
  (filterJobs_notFound_iff_empty [j1] ⟨some "zzz", none, none⟩).1.mpr (by rfl)

/-- C10: filtering distinguishes options by truthiness, not presence:
`minSalary: 0` behaves exactly like an absent `minSalary`, `title: ""`
behaves exactly like an absent `title`, and on a non-empty collection
`{minSalary: 0}` alone returns the whole collection unchanged. -/
theorem filterJobs_truthiness (data : List Job) (t : Option String)
    (m : Option Nat) (e : Option Bool) :
    (filterJobs data ⟨t, some 0, e⟩ = filterJobs data ⟨t, none, e⟩)
    ∧ (filterJobs data ⟨some "", m, e⟩ = filterJobs data ⟨none, m, e⟩)
    ∧ (data ≠ [] → filterJobs data ⟨none, some 0, none⟩ = .ok data) := by
  refine ⟨rfl, rfl, fun h => ?_⟩
  show (if data = [] then _ else _) = _
  rw [if_neg h]
  rfl

/-- C10 witness: a one-job collection with `{minSalary: 0}` comes back
unchanged. -/
theorem filterJobs_truthiness_witness :
    filterJobs [j1] ⟨none, some 0, none⟩ = .ok [j1] :=
  (filterJobs_truthiness [j1] none none none).2.2 (by decide)
